import Mathlib

/-!
# SimTrace run-evaluation engine: shallow embedding

Shallow embedding of the SimTrace run evaluation and diagnosis engine
(`frontend-react/src/App.jsx` and the Express backend). JavaScript numbers
appearing as event/frame times, durations and distances are modelled as `Int`;
a value that is not coercible to a finite number (`NaN`, `Infinity`,
`undefined`) is modelled as `Option.none`. JavaScript strings are Lean
`String`s; a missing or empty `type` field is the empty string after the
source's `String(e?.type || "")` coercion.
-/

namespace SimTrace

/-- One sampled frame. Only the time field matters to the engine
(`runTimeMax`, `buildRunSummary`); positions feed the canvas only.
`t = none` models a `t` that is not coercible to a finite number. -/
structure Frame where
  t : Option Int
  deriving Repr, DecidableEq

/-- A discrete incident. `t = none` models a non-finite time; `type` is the
result of the source's `String(e?.type || "")` coercion (so a missing type is
`""`), and `detail` likewise defaults to `""`. -/
structure Event where
  t : Option Int
  type : String
  detail : String
  deriving Repr, DecidableEq

/-- Optional precomputed aggregates (`run.stats`). Each field is `none` when
absent (`undefined`/`null`), which is what the source's `??` falls through. -/
structure Stats where
  duration_s : Option Int
  distance_m : Option Int
  near_collision_count : Option Nat
  collision_count : Option Nat
  stuck_count : Option Nat
  replan_count : Option Nat
  deriving Repr, DecidableEq

/-- The all-absent stats record, i.e. the source's `run?.stats || {}`. -/
def Stats.empty : Stats :=
  { duration_s := none, distance_m := none, near_collision_count := none,
    collision_count := none, stuck_count := none, replan_count := none }

/-- A recorded run: frames + events + optional stats. -/
structure Run where
  frames : List Frame
  events : List Event
  stats : Stats
  deriving Repr, DecidableEq

/-- Per-type weights of a scenario policy (all non-negative in the source). -/
structure Weights where
  near : Nat
  collision : Nat
  stuck : Nat
  replan : Nat
  deriving Repr, DecidableEq

/-- Score thresholds: `score <= pass => PASS, <= warn => WARN, else FAIL`. -/
structure Thresholds where
  pass : Nat
  warn : Nat
  deriving Repr, DecidableEq

/-- A scenario policy entry of the `SCENARIOS` registry. -/
structure Scenario where
  key : String
  name : String
  blurb : String
  weights : Weights
  thresholds : Thresholds
  deriving Repr, DecidableEq

/-- The `SCENARIOS.warehouse` policy. -/
def warehouse : Scenario :=
  { key := "warehouse", name := "Warehouse robot",
    blurb := "Strict indoor policy: tight aisles, low tolerance for near-collisions and deadlocks.",
    weights := { near := 3, collision := 8, stuck := 6, replan := 1 },
    thresholds := { pass := 6, warn := 14 } }

/-- The `SCENARIOS.delivery` policy. -/
def delivery : Scenario :=
  { key := "delivery", name := "Delivery bot (ground)",
    blurb := "Moderate policy: sidewalks + obstacles; some pauses are okay, but repeated issues are not.",
    weights := { near := 2, collision := 6, stuck := 4, replan := 1 },
    thresholds := { pass := 8, warn := 18 } }

/-- The `SCENARIOS.sar` policy. -/
def sar : Scenario :=
  { key := "sar", name := "Search & rescue",
    blurb := "Lenient collision policy, but deadlocks matter: complex terrain; recovery is critical.",
    weights := { near := 1, collision := 3, stuck := 7, replan := 1 },
    thresholds := { pass := 10, warn := 22 } }

/-- Lookup `SCENARIOS[scenarioKey] || SCENARIOS.warehouse`, restricted to
keys that do not name an inherited `Object.prototype` member: an own
property yields its policy, and any other such key yields `undefined`
(falsy), defaulting to `warehouse`. On a key naming an inherited member
(`"toString"`, `"valueOf"`, ...) the real JS access returns that truthy
member instead, and scoring then throws; `scenariosAccess` and `scoreRunJs`
below model the access in full, and agree with this restriction away from
those member names. -/
def lookupScenario (key : String) : Scenario :=
  if key = "warehouse" then warehouse
  else if key = "delivery" then delivery
  else if key = "sar" then sar
  else warehouse

/-- The property names every object literal inherits from
`Object.prototype`; for each of these, `SCENARIOS[key]` yields a truthy
member (a function, or the prototype object for `"__proto__"`) rather than
`undefined`. -/
def objectPrototypeMembers : List String :=
  ["constructor", "hasOwnProperty", "isPrototypeOf", "propertyIsEnumerable",
   "toLocaleString", "toString", "valueOf", "__proto__",
   "__defineGetter__", "__defineSetter__", "__lookupGetter__", "__lookupSetter__"]

/-- The possible results of the JS property access `SCENARIOS[key]`: an own
property (one of the three policies), a truthy member inherited from
`Object.prototype` (not a policy), or `undefined`. -/
inductive JsMember where
  | policy (sc : Scenario)
  | protoMember
  | undef
  deriving Repr, DecidableEq

/-- The JS property access `SCENARIOS[scenarioKey]` with the prototype chain
included: own properties first, then the inherited `Object.prototype`
members, else `undefined`. -/
def scenariosAccess (key : String) : JsMember :=
  if key = "warehouse" then JsMember.policy warehouse
  else if key = "delivery" then JsMember.policy delivery
  else if key = "sar" then JsMember.policy sar
  else if key ∈ objectPrototypeMembers then JsMember.protoMember
  else JsMember.undef

/-- The full `sc = SCENARIOS[scenarioKey] || SCENARIOS.warehouse`: only
`undefined` is falsy here, so it alone defaults to `warehouse`; an inherited
member is truthy and survives the `||`. -/
def scJs (key : String) : JsMember :=
  match scenariosAccess key with
  | JsMember.undef => JsMember.policy warehouse
  | m => m

/-- The per-type counters `c` accumulated by `countEvents`. -/
structure Counts where
  near : Nat
  collision : Nat
  stuck : Nat
  replan : Nat
  deriving Repr, DecidableEq

/-- Source `countEvents(run)`: scans `run.events` and counts exact `type` matches.
Note the source checks only `String(e?.type || "")`; the event's `t` is never
consulted here. -/
def countEvents (run : Run) : Counts :=
  { near := (run.events.filter (fun e => e.type = "near_collision")).length,
    collision := (run.events.filter (fun e => e.type = "collision")).length,
    stuck := (run.events.filter (fun e => e.type = "stuck")).length,
    replan := (run.events.filter (fun e => e.type = "replan")).length }

/-- The weighted sum `c.near * w.near + c.collision * w.collision +
c.stuck * w.stuck + c.replan * w.replan` computed inside `scoreRun`. -/
def weightedScore (c : Counts) (w : Weights) : Nat :=
  c.near * w.near + c.collision * w.collision + c.stuck * w.stuck + c.replan * w.replan

/-- The result object of `scoreRun`. -/
structure ScoreResult where
  score : Nat
  status : String
  blurb : String
  counts : Counts
  deriving Repr, DecidableEq

/-- Source `scoreRun(run, scenarioKey)`. -/
def scoreRun (run : Run) (scenarioKey : String) : ScoreResult :=
  let sc := lookupScenario scenarioKey
  let c := countEvents run
  let score := weightedScore c sc.weights
  let status :=
    if score ≤ sc.thresholds.pass then "PASS"
    else if score ≤ sc.thresholds.warn then "WARN"
    else "FAIL"
  { score := score, status := status, blurb := sc.blurb, counts := c }

/-- Source `scoreRun(run, scenarioKey)` under the full JS lookup semantics:
when `scJs` yields a policy the computation is as in `scoreRun`; when it
yields a non-policy (an inherited `Object.prototype` member, whose `weights`
field is `undefined`), evaluating `c.near * w.near` throws a TypeError,
modelled as `Except.error`. -/
def scoreRunJs (run : Run) (scenarioKey : String) : Except String ScoreResult :=
  match scJs scenarioKey with
  | JsMember.policy sc =>
    let c := countEvents run
    let score := weightedScore c sc.weights
    let status :=
      if score ≤ sc.thresholds.pass then "PASS"
      else if score ≤ sc.thresholds.warn then "WARN"
      else "FAIL"
    Except.ok { score := score, status := status, blurb := sc.blurb, counts := c }
  | _ => Except.error "TypeError: cannot read properties of undefined"

/-- Source `runTimeMax(run)`: the last frame's `t` when it is a finite number, else 0
(also 0 for an empty frame list). -/
def runTimeMax (run : Run) : Int :=
  match run.frames.getLast? with
  | none => 0
  | some f =>
    match f.t with
    | some t => t
    | none => 0

/-- One entry of the `events_evidence` list after the map in
`buildRunSummary`: `t` is already a finite number and `type` and `detail`
are coerced strings. -/
structure EvidenceItem where
  t : Int
  type : String
  detail : String
  deriving Repr, DecidableEq

/-- The per-event part of `buildRunSummary`'s evidence pipeline: the map to
`{t: Number(e.t), type: String(e.type || ""), detail: String(e.detail || "")}`
fused with the `Number.isFinite(e.t) && e.type` filter. `none` when the event
is invalid (non-finite time or empty type). -/
def evidenceOf (e : Event) : Option EvidenceItem :=
  match e.t with
  | some t => if e.type = "" then none else some ⟨t, e.type, e.detail⟩
  | none => none

/-- The map+filter stage of `buildRunSummary`'s evidence pipeline: keep events
whose `t` is a finite number (`Number.isFinite`) and whose `type` is
non-empty (truthy). -/
def validEvidence (run : Run) : List EvidenceItem :=
  run.events.filterMap evidenceOf

/-- The `.sort((a, b) => a.t - b.t)` stage: stable ascending sort by time
(JavaScript's `Array.prototype.sort` is stable; `mergeSort` models it). -/
def sortedEvidence (run : Run) : List EvidenceItem :=
  (validEvidence run).mergeSort (fun a b => a.t ≤ b.t)

/-- Source `evidence.length <= 24 ? evidence : evidence.slice(0, 12).concat(evidence.slice(-12))`;
`slice(-12)` takes the final 12 entries, i.e. drops `length - 12`. -/
def eventsEvidence (run : Run) : List EvidenceItem :=
  let ev := sortedEvidence run
  if ev.length ≤ 24 then ev else ev.take 12 ++ ev.drop (ev.length - 12)

/-- The `counts` object of `buildRunSummary`: `stats.<type>_count ?? events.filter(...).length`
(nullish coalescing, so a present 0 stays 0). -/
structure SummaryCounts where
  near_collision : Nat
  collision : Nat
  stuck : Nat
  replan : Nat
  deriving Repr, DecidableEq

/-- The `counts` computation of `buildRunSummary`. -/
def summaryCounts (run : Run) : SummaryCounts :=
  { near_collision := run.stats.near_collision_count.getD
      ((run.events.filter (fun e => e.type = "near_collision")).length),
    collision := run.stats.collision_count.getD
      ((run.events.filter (fun e => e.type = "collision")).length),
    stuck := run.stats.stuck_count.getD
      ((run.events.filter (fun e => e.type = "stuck")).length),
    replan := run.stats.replan_count.getD
      ((run.events.filter (fun e => e.type = "replan")).length) }

/-- Source `stats.duration_s ?? (frames.length ? Number(frames[last]?.t) : 0)`,
followed by the `Number(duration_s) || 0` coercion (a non-finite last frame
time becomes 0). -/
def summaryDuration (run : Run) : Int :=
  match run.stats.duration_s with
  | some d => d
  | none =>
    match run.frames.getLast? with
    | none => 0
    | some f => f.t.getD 0

/-- The summary object returned by `buildRunSummary`. -/
structure RunSummary where
  duration_s : Int
  distance_m : Option Int
  counts : SummaryCounts
  events_evidence : List EvidenceItem
  frame_count : Nat
  event_count : Nat
  deriving Repr, DecidableEq

/-- Source `buildRunSummary(run)`. `distance_m` is `stats.distance_m ?? null`, with
the final `Number` coercion the identity on an already-numeric value. -/
def buildRunSummary (run : Run) : RunSummary :=
  { duration_s := summaryDuration run,
    distance_m := run.stats.distance_m,
    counts := summaryCounts run,
    events_evidence := eventsEvidence run,
    frame_count := run.frames.length,
    event_count := run.events.length }

/-- The delta object computed by the `deltas` memo in `App`. The source
computes per-type deltas for `near`, `stuck` and `collision` only (there is
no `replan` delta field). -/
structure Deltas where
  score : Int
  near : Int
  stuck : Int
  collision : Int
  duration : Int
  distance : Option Int
  better : Bool
  equal : Bool
  deriving Repr, DecidableEq

/-- The `deltas` memo: both runs are scored under the single selected
`scenarioKey`. `(durB || 0) - (durA || 0)` is `durB - durA` here because
`runTimeMax` already yields a finite number (the `|| 0` only rewrites 0 to
itself or a NaN, which `runTimeMax` cannot produce, to 0). -/
def deltas (run compareRun : Run) (scenarioKey : String) : Deltas :=
  let primary := scoreRun run scenarioKey
  let compared := scoreRun compareRun scenarioKey
  let a := primary.counts
  let b := compared.counts
  let durA := runTimeMax run
  let durB := runTimeMax compareRun
  { score := (compared.score : Int) - (primary.score : Int),
    near := (b.near : Int) - (a.near : Int),
    stuck := (b.stuck : Int) - (a.stuck : Int),
    collision := (b.collision : Int) - (a.collision : Int),
    duration := durB - durA,
    distance :=
      match compareRun.stats.distance_m, run.stats.distance_m with
      | some db, some da => some (db - da)
      | _, _ => none,
    better := decide (compared.score < primary.score),
    equal := decide (compared.score = primary.score) }

/-! ## Backend: the Express `/api/diagnose` endpoint -/

/-- The model's parsed JSON reply as far as the endpoint inspects it: the
handler reads only `compare_insights` (coercing a missing or non-string value
to `""`; `none` models `typeof out.compare_insights !== "string"`) and returns
every other top-level field verbatim, modelled as an opaque association list
`payload`. -/
structure ModelOutput where
  payload : List (String × String)
  compare_insights : Option String
  deriving Repr, DecidableEq

/-- Source `if (typeof out.compare_insights !== "string") out.compare_insights = ""`. -/
def normalizeOutput (out : ModelOutput) : ModelOutput :=
  match out.compare_insights with
  | some _ => out
  | none => { out with compare_insights := some "" }

/-- An error thrown by the model call (`catch (err)`): `status` is
`err?.status` and `message` the best-effort text the handler extracts via
`err?.error?.message || err?.message || String(err)`. -/
structure ModelError where
  status : Option Nat
  message : String
  deriving Repr, DecidableEq

/-- JavaScript `v || d` on an optional number: `undefined`, `null` and `0`
are falsy. -/
def jsOrNat (v : Option Nat) (d : Nat) : Nat :=
  match v with
  | some s => if s = 0 then d else s
  | none => d

/-- An HTTP response produced by the endpoint, as
`res.status(...).json({...})`: fields that the JSON body omits are `none`. -/
structure HttpResponse where
  status : Nat
  error : Option String
  details : Option String
  raw : Option String
  body : Option ModelOutput
  deriving Repr, DecidableEq

/-- Source `res.status(400).json({ error: "Missing scenarioKey or runSummary" })`. -/
def resp400 : HttpResponse :=
  { status := 400, error := some "Missing scenarioKey or runSummary",
    details := none, raw := none, body := none }

/-- The request body `req.body` as destructured by the endpoint. `none`
models an absent or `null` field; a present-but-empty `scenarioKey` string is
`some ""` (falsy, hence also rejected). -/
structure DiagnoseRequest where
  scenarioKey : Option String
  runSummary : Option RunSummary
  compareSummary : Option RunSummary
  deriving Repr, DecidableEq

/-- The `promptObj` serialized into the model prompt:
`{ scenarioKey, runSummary, compareSummary: compareSummary || null }`. -/
structure PromptObj where
  scenarioKey : String
  runSummary : RunSummary
  compareSummary : Option RunSummary
  deriving Repr, DecidableEq

/-- Handling of the raw model reply `text`: `JSON.parse` is modelled by the
`parse` argument, `none` meaning the text is not parseable as JSON. On parse
failure the endpoint answers 502 `bad_model_json` with `raw: text.slice(0, 2000)`;
on success it answers `res.json(out)` (status 200) after the
`compare_insights` normalization. -/
def handleModelReply (parse : String → Option ModelOutput) (text : String) : HttpResponse :=
  match parse text with
  | none =>
    { status := 502, error := some "bad_model_json",
      details := some "Model did not return valid JSON.",
      raw := some (text.take 2000), body := none }
  | some out =>
    { status := 200, error := none, details := none, raw := none,
      body := some (normalizeOutput out) }

/-- The endpoint's model round trip: `ai.models.generateContent` plus the
reply handling, under the surrounding `try`/`catch`. The transport is the
`callModel` argument: `Except.error` models a thrown error caught by the
`catch` block (answered with `err?.status || 500` and `diagnose_failed`),
`Except.ok text` the reply `response?.text || ""`. -/
def modelPhase (callModel : PromptObj → Except ModelError String)
    (parse : String → Option ModelOutput) (promptObj : PromptObj) : HttpResponse :=
  match callModel promptObj with
  | Except.error err =>
    { status := jsOrNat err.status 500, error := some "diagnose_failed",
      details := some err.message, raw := none, body := none }
  | Except.ok text => handleModelReply parse text

/-- Source `app.post("/api/diagnose")`. Requests with a falsy `scenarioKey` or
`runSummary` are rejected with 400 before any model call; otherwise the
`promptObj` (with `compareSummary: compareSummary || null`) goes to the
model phase. -/
def diagnoseEndpoint (callModel : PromptObj → Except ModelError String)
    (parse : String → Option ModelOutput) (req : DiagnoseRequest) : HttpResponse :=
  match req.scenarioKey, req.runSummary with
  | some sk, some rs =>
    if sk = "" then resp400
    else
      modelPhase callModel parse
        { scenarioKey := sk, runSummary := rs, compareSummary := req.compareSummary }
  | _, _ => resp400

/-! ## Frontend: the `diagnoseLLM` handler -/

/-- One entry of the success body's `evidence` array as the frontend renders
it. `t_str` stands for the floating-point rendering `Number(e.t).toFixed(1)`,
abstracted as an already-formatted string. -/
structure DiagEvidenceLine where
  t_str : String
  type : String
  why_it_matters : String
  deriving Repr, DecidableEq

/-- The success body consumed by `diagnoseLLM`. `confidence_str` stands for
`Number(data.confidence).toFixed(2)`, abstracted as an already-formatted
string; an absent `root_causes`/`evidence`/`recommendations`/`next_tests`
array (`data.x || []`) is the empty list. -/
structure DiagnosisData where
  verdict : String
  confidence_str : String
  operator_summary : String
  root_causes : List String
  evidence : List DiagEvidenceLine
  recommendations : List String
  next_tests : List String
  compare_insights : String
  deriving Repr, DecidableEq

/-- The `pretty` string assembled by `diagnoseLLM` on a successful response. -/
def prettyDiagnosis (d : DiagnosisData) : String :=
  "VERDICT: " ++ d.verdict ++ " (conf " ++ d.confidence_str ++ ")\n\n" ++
  d.operator_summary ++ "\n\n" ++
  "ROOT CAUSES:\n- " ++ String.intercalate "\n- " d.root_causes ++ "\n\n" ++
  "EVIDENCE:\n- " ++ String.intercalate "\n- "
    (d.evidence.map (fun e => "[" ++ e.t_str ++ "s] " ++ e.type ++ ": " ++ e.why_it_matters)) ++
  "\n\n" ++
  "RECOMMENDATIONS:\n- " ++ String.intercalate "\n- " d.recommendations ++ "\n\n" ++
  "NEXT TESTS:\n- " ++ String.intercalate "\n- " d.next_tests ++
  (if d.compare_insights = "" then "" else "\n\nCOMPARE:\n" ++ d.compare_insights)

/-- JavaScript `v || d` on an optional string: `undefined`, `null` and `""`
are falsy. -/
def jsOrStr (v : Option String) (d : String) : String :=
  match v with
  | some s => if s = "" then d else s
  | none => d

/-- The outcome of one `fetch("/api/diagnose")` as `diagnoseLLM` sees it:
either a response (`resp.ok`, `resp.status`, the parsed body's optional
`error` field, and the body read as a diagnosis) or a thrown transport
error. -/
inductive FetchResult where
  | response (ok : Bool) (status : Nat) (errorField : Option String) (data : DiagnosisData)
  | transportError (e : String)
  deriving Repr, DecidableEq

/-- What `diagnoseLLM` writes to `diagText`, separated by branch: the
`!resp.ok` branch writes `"Backend error: " + (data?.error || resp.status)`,
the catch branch `"Request failed: " + String(e)`, and the success branch the
`pretty` diagnosis text. -/
inductive DiagOutcome where
  | backendError (msg : String)
  | requestFailed (msg : String)
  | diagnosis (d : DiagnosisData)
  deriving Repr, DecidableEq

/-- The branch structure of `diagnoseLLM` after the fetch resolves. -/
def diagnoseLLMOutcome : FetchResult → DiagOutcome
  | FetchResult.transportError e => DiagOutcome.requestFailed e
  | FetchResult.response ok status errorField data =>
    if ok then DiagOutcome.diagnosis data
    else DiagOutcome.backendError (jsOrStr errorField (toString status))

/-- The text each outcome stores into `diagText`. -/
def renderOutcome : DiagOutcome → String
  | DiagOutcome.backendError m => "Backend error: " ++ m
  | DiagOutcome.requestFailed m => "Request failed: " ++ m
  | DiagOutcome.diagnosis d => prettyDiagnosis d

/-! ## Concrete runs used as witnesses -/

/-- Run A of the spec's worked example: counts
`{near: 2, collision: 0, stuck: 1, replan: 0}`. -/
def runA : Run :=
  { frames := [⟨some 9⟩], stats := Stats.empty,
    events := [⟨some 1, "near_collision", "close pass"⟩,
               ⟨some 4, "stuck", "wedged"⟩,
               ⟨some 7, "near_collision", "shelf"⟩] }

/-- Run B of the spec's worked example: counts
`{near: 0, collision: 1, stuck: 0, replan: 0}`. -/
def runB : Run :=
  { frames := [⟨some 11⟩], stats := Stats.empty,
    events := [⟨some 5, "collision", "clipped corner"⟩] }

/-- Stats supplying all four per-type counts (each 0). -/
def statsWithCounts : Stats :=
  { duration_s := none, distance_m := none, near_collision_count := some 0,
    collision_count := some 0, stuck_count := some 0, replan_count := some 0 }

/-- A run whose stats carry counts and whose event list is empty. -/
def runStatsOnly : Run := { frames := [], events := [], stats := statsWithCounts }

/-- Same stats as `runStatsOnly` but with a collision event in the list. -/
def runStatsPlusEvent : Run :=
  { frames := [], events := [⟨some 1, "collision", "bump"⟩], stats := statsWithCounts }

/-- A run whose only event has a non-finite time but a recognized type. -/
def runInvalid : Run :=
  { frames := [], events := [⟨none, "collision", "nan time"⟩], stats := Stats.empty }

/-- An all-empty diagnosis body, used as a concrete response payload. -/
def emptyDiagnosisData : DiagnosisData :=
  { verdict := "", confidence_str := "", operator_summary := "", root_causes := [],
    evidence := [], recommendations := [], next_tests := [], compare_insights := "" }

/-! ## Helper lemmas -/

/-- In every registered policy (and hence for every key, by defaulting) the
`pass` threshold does not exceed the `warn` threshold. -/
theorem pass_le_warn (key : String) :
    (lookupScenario key).thresholds.pass ≤ (lookupScenario key).thresholds.warn := by
  unfold lookupScenario
  split_ifs <;> decide

/-- Blanking every event time does not change any per-type filter count. -/
theorem filter_type_of_mapNone (evs : List Event) (ty : String) :
    ((evs.map (fun e => { e with t := none })).filter (fun e => e.type = ty)).length
      = (evs.filter (fun e => e.type = ty)).length := by
  induction evs with
  | nil => rfl
  | cons e es ih =>
    by_cases h : e.type = ty <;> simp [h, ih]

/-- Dropping empty-type events does not change the count of any non-empty
type. -/
theorem filter_type_of_filterNonempty (evs : List Event) (ty : String) (hty : ty ≠ "") :
    ((evs.filter (fun e => e.type ≠ "")).filter (fun e => e.type = ty)).length
      = (evs.filter (fun e => e.type = ty)).length := by
  rw [List.filter_filter]
  apply congrArg List.length
  apply List.filter_congr
  intro a _
  by_cases h : a.type = ty
  · have hne : ¬a.type = "" := by rw [h]; exact hty
    simp [h, hne, hty]
  · simp [h]

/-- Pre-filtering the events to the valid ones does not change the evidence
extraction, because `evidenceOf` already rejects invalid events. -/
theorem filterMap_evidenceOf_filterValid (evs : List Event) :
    (evs.filter (fun e => e.t.isSome && decide (e.type ≠ ""))).filterMap evidenceOf
      = evs.filterMap evidenceOf := by
  induction evs with
  | nil => rfl
  | cons e es ih =>
    simp only [ne_eq, decide_not] at ih ⊢
    rcases he : e.t with _ | t
    · simp [List.filter, List.filterMap, he, evidenceOf, ih]
    · by_cases h2 : e.type = "" <;>
        simp [List.filter, List.filterMap, he, evidenceOf, h2, ih]

/-! ## Claim theorems -/

/-- Claim C1: for every Run and scenario key, the score is the weighted sum
of the per-type counts under the resolved policy's weights, and the verdict
is PASS exactly when `score <= pass`, WARN exactly when
`pass < score <= warn`, FAIL exactly when `warn < score`; in particular a
Run with counts `{near: 2, collision: 0, stuck: 1, replan: 0}` scores 12
with verdict WARN under `warehouse`. -/
theorem scoreRun_characterization (run : Run) (key : String) :
    ((scoreRun run key).score = weightedScore (countEvents run) (lookupScenario key).weights
      ∧ ((scoreRun run key).status = "PASS" ↔
          (scoreRun run key).score ≤ (lookupScenario key).thresholds.pass)
      ∧ ((scoreRun run key).status = "WARN" ↔
          (lookupScenario key).thresholds.pass < (scoreRun run key).score
            ∧ (scoreRun run key).score ≤ (lookupScenario key).thresholds.warn)
      ∧ ((scoreRun run key).status = "FAIL" ↔
          (lookupScenario key).thresholds.warn < (scoreRun run key).score))
    ∧ (countEvents run = { near := 2, collision := 0, stuck := 1, replan := 0 } →
        (scoreRun run "warehouse").score = 12 ∧ (scoreRun run "warehouse").status = "WARN") := by
  have hpw := pass_le_warn key
  refine ⟨⟨rfl, ?_, ?_, ?_⟩, ?_⟩
  · unfold scoreRun
    simp only []
    split_ifs with h1 h2 <;> simp_all
  · unfold scoreRun
    simp only []
    split_ifs with h1 h2 <;> simp_all <;> omega
  · unfold scoreRun
    simp only []
    split_ifs with h1 h2 <;> simp_all <;> omega
  · intro h
    unfold scoreRun
    rw [h]
    decide

/-- Witness for C1: Run A has the example counts, scores 12 and is WARN
under `warehouse`. -/
theorem scoreRun_characterization_witness :
    countEvents runA = { near := 2, collision := 0, stuck := 1, replan := 0 }
      ∧ (scoreRun runA "warehouse").score = 12 ∧ (scoreRun runA "warehouse").status = "WARN" :=
  ⟨by decide, (scoreRun_characterization runA "warehouse").2 (by decide)⟩

/-- Claim C2: the evidence list of `buildRunSummary` is the run's valid
events sorted ascending by time: the sorted list is time-ordered and a
permutation of the valid events (no reordering loss, no deduplication); when
at most 24 events are valid the list is kept whole, otherwise it is the
first 12 followed by the last 12 of the sorted list, so its length is
`min n 24` (exactly 24 entries when `n > 24`). -/
theorem evidence_characterization (run : Run) :
    List.Pairwise (fun a b : EvidenceItem => a.t ≤ b.t) (sortedEvidence run)
    ∧ (sortedEvidence run).Perm (validEvidence run)
    ∧ (buildRunSummary run).events_evidence =
        (if (sortedEvidence run).length ≤ 24 then sortedEvidence run
         else (sortedEvidence run).take 12
            ++ (sortedEvidence run).drop ((sortedEvidence run).length - 12))
    ∧ (buildRunSummary run).events_evidence.length = min (sortedEvidence run).length 24 := by
  refine ⟨?_, List.mergeSort_perm _ _, rfl, ?_⟩
  · have h := @List.sorted_mergeSort EvidenceItem (fun a b => a.t ≤ b.t)
      (fun a b c h1 h2 => by simp_all; omega)
      (fun a b => by simpa using Int.le_total a.t b.t) (validEvidence run)
    exact h.imp (by simp)
  · show (eventsEvidence run).length = _
    unfold eventsEvidence
    simp only []
    split_ifs with h
    · omega
    · rw [List.length_append, List.length_take, List.length_drop]
      omega

/-- Claim C3: every delta the comparison computes (score, near, stuck,
collision, duration, distance) is the compared run's value minus the primary
run's value under the one selected policy; `better` holds exactly when the
compared score is strictly lower and `equal` exactly when the scores tie;
in particular comparing Run A (score 12) with Run B (score 8) yields
delta score -4, delta near -2, delta stuck -1 and `better = true`. -/
theorem deltas_characterization (run compareRun : Run) (key : String) :
    ((deltas run compareRun key).score
        = ((scoreRun compareRun key).score : Int) - ((scoreRun run key).score : Int)
      ∧ (deltas run compareRun key).near
        = ((countEvents compareRun).near : Int) - ((countEvents run).near : Int)
      ∧ (deltas run compareRun key).stuck
        = ((countEvents compareRun).stuck : Int) - ((countEvents run).stuck : Int)
      ∧ (deltas run compareRun key).collision
        = ((countEvents compareRun).collision : Int) - ((countEvents run).collision : Int)
      ∧ (deltas run compareRun key).duration = runTimeMax compareRun - runTimeMax run
      ∧ (∀ db da, compareRun.stats.distance_m = some db → run.stats.distance_m = some da →
          (deltas run compareRun key).distance = some (db - da))
      ∧ (compareRun.stats.distance_m = none ∨ run.stats.distance_m = none →
          (deltas run compareRun key).distance = none)
      ∧ ((deltas run compareRun key).better = true ↔
          (scoreRun compareRun key).score < (scoreRun run key).score)
      ∧ ((deltas run compareRun key).equal = true ↔
          (scoreRun compareRun key).score = (scoreRun run key).score))
    ∧ (countEvents run = { near := 2, collision := 0, stuck := 1, replan := 0 } →
        countEvents compareRun = { near := 0, collision := 1, stuck := 0, replan := 0 } →
        (deltas run compareRun "warehouse").score = -4
          ∧ (deltas run compareRun "warehouse").near = -2
          ∧ (deltas run compareRun "warehouse").stuck = -1
          ∧ (deltas run compareRun "warehouse").better = true) := by
  constructor
  · refine ⟨rfl, rfl, rfl, rfl, rfl, ?_, ?_, ?_, ?_⟩
    · intro db da hdb hda
      unfold deltas
      simp only [hdb, hda]
    · intro h
      unfold deltas
      rcases h with h | h <;> simp only [h] <;> cases run.stats.distance_m <;>
        cases compareRun.stats.distance_m <;> rfl
    · unfold deltas
      simp
    · unfold deltas
      simp
  · intro ha hb
    have hs1 : (scoreRun run "warehouse").score = 12 := by
      show weightedScore (countEvents run) (lookupScenario "warehouse").weights = 12
      rw [ha]; decide
    have hs2 : (scoreRun compareRun "warehouse").score = 8 := by
      show weightedScore (countEvents compareRun) (lookupScenario "warehouse").weights = 8
      rw [hb]; decide
    refine ⟨?_, ?_, ?_, ?_⟩
    · show ((scoreRun compareRun "warehouse").score : Int)
          - ((scoreRun run "warehouse").score : Int) = -4
      rw [hs1, hs2]; decide
    · show ((countEvents compareRun).near : Int) - ((countEvents run).near : Int) = -2
      rw [ha, hb]; decide
    · show ((countEvents compareRun).stuck : Int) - ((countEvents run).stuck : Int) = -1
      rw [ha, hb]; decide
    · show decide ((scoreRun compareRun "warehouse").score
          < (scoreRun run "warehouse").score) = true
      rw [hs1, hs2]; decide

/-- Witness for C3: the worked example with Run A and Run B under
`warehouse`. -/
theorem deltas_characterization_witness :
    countEvents runA = { near := 2, collision := 0, stuck := 1, replan := 0 }
    ∧ countEvents runB = { near := 0, collision := 1, stuck := 0, replan := 0 }
    ∧ (deltas runA runB "warehouse").score = -4
    ∧ (deltas runA runB "warehouse").near = -2
    ∧ (deltas runA runB "warehouse").stuck = -1
    ∧ (deltas runA runB "warehouse").better = true := by
  refine ⟨by decide, by decide, ?_⟩
  have h := (deltas_characterization runA runB "warehouse").2 (by decide) (by decide)
  exact ⟨h.1, h.2.1, h.2.2.1, h.2.2.2⟩

/-- Counterexample to C4: two runs with identical Stats (all four counts
supplied) but different event lists get different scores and verdicts,
because `scoreRun` counts by scanning events and never consults Stats. -/
theorem stats_ignored_by_scoring :
    runStatsOnly.stats = runStatsPlusEvent.stats
    ∧ (scoreRun runStatsOnly "warehouse").score = 0
    ∧ (scoreRun runStatsOnly "warehouse").status = "PASS"
    ∧ (scoreRun runStatsPlusEvent "warehouse").score = 8
    ∧ (scoreRun runStatsPlusEvent "warehouse").status = "WARN" := by decide

/-- Claim C4 as amended: it is the run summary, not the scoring operation,
that derives per-type counts from Stats when present — two runs with
identical Stats supplying all four counts have identical summary counts
whatever their events — while `scoreRun` is entirely insensitive to Stats. -/
theorem summary_counts_from_stats (r1 r2 : Run) (key : String) (s' : Stats)
    (h : r1.stats = r2.stats)
    (hn : r1.stats.near_collision_count.isSome = true)
    (hc : r1.stats.collision_count.isSome = true)
    (hs : r1.stats.stuck_count.isSome = true)
    (hr : r1.stats.replan_count.isSome = true) :
    (buildRunSummary r1).counts = (buildRunSummary r2).counts
    ∧ scoreRun { r1 with stats := s' } key = scoreRun r1 key := by
  constructor
  · obtain ⟨n, hn'⟩ := Option.isSome_iff_exists.mp hn
    obtain ⟨c, hc'⟩ := Option.isSome_iff_exists.mp hc
    obtain ⟨s, hs'⟩ := Option.isSome_iff_exists.mp hs
    obtain ⟨p, hr'⟩ := Option.isSome_iff_exists.mp hr
    show summaryCounts r1 = summaryCounts r2
    unfold summaryCounts
    rw [← h, hn', hc', hs', hr']
    rfl
  · rfl

/-- Witness for amended C4: the two runs of the counterexample do share
their summary counts. -/
theorem summary_counts_from_stats_witness :
    (buildRunSummary runStatsOnly).counts = (buildRunSummary runStatsPlusEvent).counts :=
  (summary_counts_from_stats runStatsOnly runStatsPlusEvent "warehouse" Stats.empty
    rfl rfl rfl rfl rfl).1

/-- Counterexample to C5: when the model-backed path fails (here a 502 with
error tag `bad_model_json`), `diagnoseLLM` stores the error message — no
rule-based strategy produces a DiagnosisResult as a fallback. -/
theorem no_fallback_counterexample :
    diagnoseLLMOutcome
        (FetchResult.response false 502 (some "bad_model_json") emptyDiagnosisData)
      = DiagOutcome.backendError "bad_model_json"
    ∧ renderOutcome
        (diagnoseLLMOutcome
          (FetchResult.response false 502 (some "bad_model_json") emptyDiagnosisData))
      = "Backend error: bad_model_json" := by decide

/-- Claim C5 as amended: the code has no rule-based diagnosis strategy; on
every failing model-backed call the frontend reports the error text (backend
error tag or status for a non-ok response, the thrown error for a transport
failure) and produces no diagnosis. -/
theorem model_failure_shows_error (status : Nat) (errorField : Option String)
    (data : DiagnosisData) (e : String) :
    diagnoseLLMOutcome (FetchResult.response false status errorField data)
      = DiagOutcome.backendError (jsOrStr errorField (toString status))
    ∧ renderOutcome (diagnoseLLMOutcome (FetchResult.response false status errorField data))
      = "Backend error: " ++ jsOrStr errorField (toString status)
    ∧ diagnoseLLMOutcome (FetchResult.transportError e) = DiagOutcome.requestFailed e :=
  ⟨rfl, rfl, rfl⟩

/-- Claim C6: whenever the model reply text does not parse as JSON the
endpoint answers 502 with error tag `bad_model_json`, no body, and the raw
reply truncated to the first 2000 characters (hence at most 2000). -/
theorem bad_model_json_contract (parse : String → Option ModelOutput) (text : String)
    (h : parse text = none) :
    handleModelReply parse text =
      { status := 502, error := some "bad_model_json",
        details := some "Model did not return valid JSON.",
        raw := some (text.take 2000), body := none }
    ∧ (text.take 2000).length ≤ 2000 := by
  constructor
  · unfold handleModelReply
    rw [h]
  · rw [String.take_eq]
    show (text.1.take 2000).length ≤ 2000
    rw [List.length_take]
    omega

/-- Witness for C6 at a concrete unparseable reply. -/
theorem bad_model_json_contract_witness :
    handleModelReply (fun _ => none) "oops, not json" =
      { status := 502, error := some "bad_model_json",
        details := some "Model did not return valid JSON.",
        raw := some (("oops, not json" : String).take 2000), body := none }
    ∧ (("oops, not json" : String).take 2000).length ≤ 2000 :=
  bad_model_json_contract (fun _ => none) "oops, not json" rfl

unseal List.merge List.mergeSort in
/-- Counterexample to C7: an event with a non-finite time but type
`collision` is dropped from the evidence list, yet still counts for scoring:
the run scores 8 (WARN) instead of 0 (PASS). -/
theorem invalid_events_counterexample :
    (countEvents runInvalid).collision = 1
    ∧ (scoreRun runInvalid "warehouse").score = 8
    ∧ (scoreRun runInvalid "warehouse").status = "WARN"
    ∧ (buildRunSummary runInvalid).events_evidence = [] := by decide

/-- Claim C7 as amended: event times never influence the scoring counts
(blanking them all changes nothing), empty-type events contribute to no
count, and invalid events (non-finite time or empty type) contribute nothing
to the evidence list. -/
theorem invalid_events_amended (r : Run) :
    countEvents { r with events := r.events.map (fun e => { e with t := none }) }
      = countEvents r
    ∧ countEvents { r with events := r.events.filter (fun e => e.type ≠ "") }
      = countEvents r
    ∧ (buildRunSummary { r with
          events := r.events.filter (fun e => e.t.isSome && decide (e.type ≠ "")) }).events_evidence
      = (buildRunSummary r).events_evidence := by
  refine ⟨?_, ?_, ?_⟩
  · unfold countEvents
    simp only []
    rw [filter_type_of_mapNone, filter_type_of_mapNone, filter_type_of_mapNone,
      filter_type_of_mapNone]
  · unfold countEvents
    simp only []
    rw [filter_type_of_filterNonempty _ _ (by decide),
      filter_type_of_filterNonempty _ _ (by decide),
      filter_type_of_filterNonempty _ _ (by decide),
      filter_type_of_filterNonempty _ _ (by decide)]
  · show eventsEvidence _ = eventsEvidence _
    unfold eventsEvidence sortedEvidence validEvidence
    simp only []
    rw [filterMap_evidenceOf_filterValid]

/-- Claim C8: scores are non-negative, the verdict is always one of PASS,
WARN, FAIL, the score is the weighted count sum, and the weighted sum is
monotone: raising counts (any one of them, others fixed) never lowers it. -/
theorem score_props (run : Run) (key : String) (c c' : Counts) (w : Weights)
    (hn : c.near ≤ c'.near) (hc : c.collision ≤ c'.collision)
    (hs : c.stuck ≤ c'.stuck) (hr : c.replan ≤ c'.replan) :
    0 ≤ (scoreRun run key).score
    ∧ ((scoreRun run key).status = "PASS" ∨ (scoreRun run key).status = "WARN"
        ∨ (scoreRun run key).status = "FAIL")
    ∧ (scoreRun run key).score = weightedScore (countEvents run) (lookupScenario key).weights
    ∧ weightedScore c w ≤ weightedScore c' w := by
  refine ⟨Nat.zero_le _, ?_, rfl, ?_⟩
  · unfold scoreRun
    simp only []
    split_ifs <;> simp
  · unfold weightedScore
    exact Nat.add_le_add (Nat.add_le_add (Nat.add_le_add
      (Nat.mul_le_mul hn (Nat.le_refl _)) (Nat.mul_le_mul hc (Nat.le_refl _)))
      (Nat.mul_le_mul hs (Nat.le_refl _))) (Nat.mul_le_mul hr (Nat.le_refl _))

/-- Witness for C8 at Run A under `warehouse`, with a one-step count
increase. -/
theorem score_props_witness :
    0 ≤ (scoreRun runA "warehouse").score
    ∧ ((scoreRun runA "warehouse").status = "PASS" ∨ (scoreRun runA "warehouse").status = "WARN"
        ∨ (scoreRun runA "warehouse").status = "FAIL")
    ∧ (scoreRun runA "warehouse").score
        = weightedScore (countEvents runA) (lookupScenario "warehouse").weights
    ∧ weightedScore ⟨1, 0, 2, 3⟩ warehouse.weights ≤ weightedScore ⟨2, 0, 2, 3⟩ warehouse.weights :=
  score_props runA "warehouse" ⟨1, 0, 2, 3⟩ ⟨2, 0, 2, 3⟩ warehouse.weights
    (by decide) (by decide) (by decide) (by decide)

/-- Counterexample to C9: `"toString"` is not a registry key, yet scoring
under it throws a TypeError (the access finds the truthy inherited
`Object.prototype.toString`, which has no `weights`) instead of resolving to
the `warehouse` policy, under which the same run scores normally. -/
theorem unknown_key_throws_counterexample :
    "toString" ≠ "warehouse" ∧ "toString" ≠ "delivery" ∧ "toString" ≠ "sar"
    ∧ scoreRunJs runA "toString"
        = Except.error "TypeError: cannot read properties of undefined"
    ∧ scoreRunJs runA "warehouse" = Except.ok (scoreRun runA "warehouse") :=
  ⟨by decide, by decide, by decide, rfl, rfl⟩

/-- Claim C9 as amended: an unregistered key resolves to the `warehouse`
default — scoring under it returns exactly the `warehouse` result — only
when the key does not name an inherited `Object.prototype` member; a key
naming such a member (`"toString"`, `"valueOf"`, `"constructor"`,
`"__proto__"`, ...) makes scoring throw a TypeError instead of defaulting. -/
theorem unknown_key_defaults_amended (run : Run) (key : String)
    (h1 : key ≠ "warehouse") (h2 : key ≠ "delivery") (h3 : key ≠ "sar") :
    (key ∉ objectPrototypeMembers →
      scoreRunJs run key = Except.ok (scoreRun run "warehouse"))
    ∧ (key ∈ objectPrototypeMembers →
      scoreRunJs run key = Except.error "TypeError: cannot read properties of undefined") := by
  constructor
  · intro hm
    unfold scoreRunJs scJs scenariosAccess scoreRun lookupScenario
    simp [h1, h2, h3, hm]
  · intro hm
    unfold scoreRunJs scJs scenariosAccess
    simp [h1, h2, h3, hm]

/-- Witness for amended C9: the ordinary unknown key `suburb` scores as
`warehouse`, while the prototype-member key `toString` throws. -/
theorem unknown_key_defaults_amended_witness :
    scoreRunJs runA "suburb" = Except.ok (scoreRun runA "warehouse")
    ∧ scoreRunJs runA "toString"
        = Except.error "TypeError: cannot read properties of undefined" :=
  ⟨(unknown_key_defaults_amended runA "suburb" (by decide) (by decide) (by decide)).1
      (by decide),
   (unknown_key_defaults_amended runA "toString" (by decide) (by decide) (by decide)).2
      (by decide)⟩

/-- Claim C10: a request with a falsy `scenarioKey` or missing `runSummary`
is answered 400 with an error message, independently of the model transport
(so no model call is observable in the result); a well-formed request whose
`compareSummary` is merely absent is not rejected — it proceeds to the model
phase with `compareSummary` forwarded as null. -/
theorem endpoint_validation (callModel : PromptObj → Except ModelError String)
    (parse : String → Option ModelOutput) (req : DiagnoseRequest)
    (sk : String) (rs : RunSummary) :
    ((req.scenarioKey = none ∨ req.scenarioKey = some "" ∨ req.runSummary = none) →
      diagnoseEndpoint callModel parse req = resp400
      ∧ resp400.status = 400
      ∧ resp400.error = some "Missing scenarioKey or runSummary"
      ∧ (∀ callModel2, diagnoseEndpoint callModel2 parse req
          = diagnoseEndpoint callModel parse req))
    ∧ (sk ≠ "" →
        diagnoseEndpoint callModel parse
            { scenarioKey := some sk, runSummary := some rs, compareSummary := none }
          = modelPhase callModel parse
              { scenarioKey := sk, runSummary := rs, compareSummary := none }) := by
  constructor
  · intro h
    have h400 : diagnoseEndpoint callModel parse req = resp400 := by
      unfold diagnoseEndpoint
      rcases hk : req.scenarioKey with _ | k
      · rfl
      · rcases hr : req.runSummary with _ | r
        · rfl
        · have hke : k = "" := by
            rcases h with h | h | h
            · rw [hk] at h; cases h
            · rw [hk] at h; injection h
            · rw [hr] at h; cases h
          rw [hke]
          rfl
    refine ⟨h400, rfl, rfl, ?_⟩
    intro callModel2
    rw [h400]
    unfold diagnoseEndpoint
    rcases hk : req.scenarioKey with _ | k
    · rfl
    · rcases hr : req.runSummary with _ | r
      · rfl
      · have hke : k = "" := by
          rcases h with h | h | h
          · rw [hk] at h; cases h
          · rw [hk] at h; injection h
          · rw [hr] at h; cases h
        rw [hke]
        rfl
  · intro h
    unfold diagnoseEndpoint
    simp [h]

/-- Witness for C10: a request missing `runSummary` is answered 400, and a
complete request with absent `compareSummary` reaches the model phase. -/
theorem endpoint_validation_witness :
    diagnoseEndpoint (fun _ => Except.ok "notjson") (fun _ => none)
        { scenarioKey := some "warehouse", runSummary := none, compareSummary := none }
      = resp400
    ∧ diagnoseEndpoint (fun _ => Except.ok "notjson") (fun _ => none)
        { scenarioKey := some "warehouse",
          runSummary := some (buildRunSummary { frames := [], events := [], stats := Stats.empty }),
          compareSummary := none }
      = modelPhase (fun _ => Except.ok "notjson") (fun _ => none)
          { scenarioKey := "warehouse",
            runSummary := buildRunSummary { frames := [], events := [], stats := Stats.empty },
            compareSummary := none } := by
  constructor
  · exact (endpoint_validation (fun _ => Except.ok "notjson") (fun _ => none)
      { scenarioKey := some "warehouse", runSummary := none, compareSummary := none }
      "warehouse" (buildRunSummary { frames := [], events := [], stats := Stats.empty })).1
      (Or.inr (Or.inr rfl)) |>.1
  · exact (endpoint_validation (fun _ => Except.ok "notjson") (fun _ => none)
      { scenarioKey := some "warehouse", runSummary := none, compareSummary := none }
      "warehouse" (buildRunSummary { frames := [], events := [], stats := Stats.empty })).2
      (by decide)

end SimTrace

